import Mathlib

set_option autoImplicit false

/-!
Verification development for the matrx-renderer rendering core.

The Go code under verification lives in internal/pixlet/worker_pool.go and
internal/pixlet/processor.go, with the data model in pkg/models.  Each Lean
definition below is a shallow embedding of one Go function or struct; the
external collaborators (the pixlet engine, the filesystem, base64, WebP
encoding) enter as oracle parameters, exactly at the call sites where the Go
code invokes them.
-/

namespace MatrxRenderer

/-- Device from pkg/models: target device id and pixel dimensions. -/
structure Device where
  id : String
  width : Int
  height : Int
deriving DecidableEq, Repr

/-- A Go interface value as it can appear in a render job's params map
(worker_pool.go, RenderJob.Params : map of string to interface).  The
constructors cover the JSON-like values the transport layer delivers:
strings, nil, booleans, integers and lists of such values. -/
inductive GoValue where
  | str (s : String)
  | nil
  | boolean (b : Bool)
  | int (n : Int)
  | list (elems : List GoValue)
deriving Repr

mutual

/-- Go fmt verb percent-v formatting for the values of GoValue, as used by
fmt.Sprintf in worker_pool.go renderScreens: booleans print as true/false,
integers in decimal, slices as bracketed space-separated elements, and a nil
interface prints as the angle-bracketed nil marker. -/
def goFmt : GoValue → String
  | .str s => s
  | .nil => "<nil>"
  | .boolean b => if b then "true" else "false"
  | .int n => toString n
  | .list xs => "[" ++ goFmtList xs ++ "]"

/-- Space-separated formatting of a slice body, as Go fmt prints slices. -/
def goFmtList : List GoValue → String
  | [] => ""
  | [x] => goFmt x
  | x :: y :: xs => goFmt x ++ " " ++ goFmtList (y :: xs)

end

/-- The config value coercion from worker_pool.go renderScreens: the switch
over the params map values.  A string passes through, a nil interface becomes
the empty string, every other value is formatted with fmt.Sprintf percent-v. -/
def coerceValue : GoValue → String
  | .str s => s
  | .nil => ""
  | v => goFmt v

mutual

/-- Modelled from the spec: the JSON serialization of a value, which section 9
of the spec says every non-scalar config value is coerced to.  Only used to
compare the spec's claimed coercion against the one the code performs. -/
def jsonOfValue : GoValue → String
  | .str s => "\x22" ++ s ++ "\x22"
  | .nil => "null"
  | .boolean b => if b then "true" else "false"
  | .int n => toString n
  | .list xs => "[" ++ jsonOfList xs ++ "]"

/-- Comma-separated JSON array body. -/
def jsonOfList : List GoValue → String
  | [] => ""
  | [x] => jsonOfValue x
  | x :: y :: xs => jsonOfValue x ++ "," ++ jsonOfList (y :: xs)

end

/-- Modelled from the spec: the coercion rules as section 9 words them
(string passthrough, boolean to true/false, numeric to decimal text, null to
empty string, everything else to its JSON serialization). -/
def specCoerceValue : GoValue → String
  | .str s => s
  | .nil => ""
  | .boolean b => if b then "true" else "false"
  | .int n => toString n
  | .list xs => jsonOfValue (.list xs)

/-- Width resolution from worker_pool.go renderScreens: non-positive device
width falls back to 64. -/
def resolveWidth (w : Int) : Int := if w ≤ 0 then 64 else w

/-- Height resolution from worker_pool.go renderScreens: non-positive device
height falls back to 32. -/
def resolveHeight (h : Int) : Int := if h ≤ 0 then 32 else h

/-- Write to a string-keyed Go map, modelled on association lists: any earlier
binding of the key is removed and the new binding appended. -/
def mapSet (m : List (String × String)) (k v : String) : List (String × String) :=
  m.filter (fun p => !(p.1 == k)) ++ [(k, v)]

/-- Read from a string-keyed Go map modelled as an association list. -/
def mapGet (m : List (String × String)) (k : String) : Option String :=
  (m.find? (fun p => p.1 == k)).map Prod.snd

/-- The config-building loop of worker_pool.go renderScreens: each params
entry is coerced to a string and written into the config map. -/
def buildConfig (params : List (String × GoValue)) : List (String × String) :=
  params.foldl (fun m p => mapSet m p.1 (coerceValue p.2)) []

/-- The full config preparation of worker_pool.go renderScreens: coerce the
params, resolve the device dimensions, then write the resolved dimensions
under the reserved keys display_width and display_height (these two writes
come last in the source, so they override caller-supplied entries). -/
def renderConfig (params : List (String × GoValue)) (device : Device) : List (String × String) :=
  mapSet
    (mapSet (buildConfig params) "display_width" (toString (resolveWidth device.width)))
    "display_height" (toString (resolveHeight device.height))

/-- The slice of encode.Screens state the core reads: whether the rendered
root set is empty (Screens.Empty) and whether the app requested full
animation playback (Screens.ShowFullAnimation). -/
structure Screens where
  empty : Bool
  showFullAnimation : Bool
deriving DecidableEq, Repr

/-- Go strings.ToLower restricted to the ASCII range, as RenderPreview uses
it on the format argument (processor.go). -/
def goToLower (s : String) : String := String.mk (s.data.map Char.toLower)

/-- The animation-duration cap computed in processor.go RenderApp and
RenderPreview: 15000 ms unless the screens ask for full animation. -/
def maxDurationFor (s : Screens) : Int := if s.showFullAnimation then 0 else 15000

/-- Errors the render pipeline can surface, one constructor per distinct
error return in worker_pool.go renderScreens. -/
inductive RenderError where
  | invalidAppID
  | appNotFound
  | statFailed
  | badSuffix
  | loadFailed
  | engineError
deriving DecidableEq, Repr

/-- The outcome of processor.go RenderPreview. -/
inductive PreviewOutcome where
  | ok (webp : List Nat)
  | renderError
  | unsupportedFormat
  | encodeError
deriving DecidableEq, Repr

/-- One run of processor.go RenderPreview, recording which collaborators were
invoked along the way. -/
structure PreviewRun where
  poolInvoked : Bool
  encodeInvoked : Bool
  outcome : PreviewOutcome
deriving DecidableEq, Repr

/-- Shallow embedding of processor.go RenderPreview.  The function first calls
p.renderScreens, which submits the job to the worker pool, then checks the
format with strings.ToLower against webp, and only then encodes.  The pool
submission outcome and the WebP encoder are oracle parameters. -/
def renderPreview (submitResult : Except RenderError Screens) (format : String)
    (encodeWebP : Screens → Int → Except Unit (List Nat)) : PreviewRun :=
  match submitResult with
  | .error _ => { poolInvoked := true, encodeInvoked := false, outcome := .renderError }
  | .ok screens =>
    if goToLower format ≠ "webp" then
      { poolInvoked := true, encodeInvoked := false, outcome := .unsupportedFormat }
    else
      match encodeWebP screens (maxDurationFor screens) with
      | .error _ => { poolInvoked := true, encodeInvoked := true, outcome := .encodeError }
      | .ok bytes => { poolInvoked := true, encodeInvoked := true, outcome := .ok bytes }

/-- The slice of models.RenderRequest that result assembly reads. -/
structure RenderRequest where
  uuid : String
  appID : String
  device : Device
deriving DecidableEq, Repr

namespace models

/-- models.RenderResult as processor.go RenderApp populates it: the literal
type tag, the echoed correlation data, the base64 output and the error flag. -/
structure RenderResult where
  type : String
  uuid : String
  deviceID : String
  appID : String
  renderOutput : String
  error : Bool
deriving DecidableEq, Repr

end models

/-- The error RenderApp hands back beside the result record: either the
submit error verbatim or an encode failure. -/
inductive AssemblyError where
  | submitFailed (e : RenderError)
  | encodeFailed
deriving DecidableEq, Repr

/-- Shallow embedding of processor.go RenderApp.  The pool submission and the
WebP encoder and base64 encoder are oracle parameters; the four return sites
of the Go function map onto the four branches. -/
def renderApp (req : RenderRequest)
    (submitResult : Except RenderError Screens)
    (encodeWebP : Screens → Int → Except Unit (List Nat))
    (b64 : List Nat → String) : models.RenderResult × Option AssemblyError :=
  match submitResult with
  | .error e =>
    ({ type := "render_result", uuid := req.uuid, deviceID := req.device.id,
       appID := req.appID, renderOutput := "", error := true }, some (.submitFailed e))
  | .ok screens =>
    if screens.empty then
      ({ type := "render_result", uuid := req.uuid, deviceID := req.device.id,
         appID := req.appID, renderOutput := "", error := false }, none)
    else
      match encodeWebP screens (maxDurationFor screens) with
      | .error _ =>
        ({ type := "render_result", uuid := req.uuid, deviceID := req.device.id,
           appID := req.appID, renderOutput := "", error := true }, some .encodeFailed)
      | .ok webpData =>
        ({ type := "render_result", uuid := req.uuid, deviceID := req.device.id,
           appID := req.appID, renderOutput := b64 webpData, error := false }, none)

/-- Whether the first character list leads the second one. -/
def charsLeadWith : List Char → List Char → Bool
  | [], _ => true
  | _ :: _, [] => false
  | a :: as, b :: bs => a == b && charsLeadWith as bs

/-- Whether the second character list occurs contiguously in the first. -/
def charsHaveInfix : List Char → List Char → Bool
  | [], sub => sub.isEmpty
  | c :: t, sub => charsLeadWith sub (c :: t) || charsHaveInfix t sub

/-- Go strings.Contains: the second string occurs as a contiguous substring
of the first. -/
def goContains (s sub : String) : Bool := charsHaveInfix s.data sub.data

/-- An app registry entry (pkg/models AppManifest): the piece renderScreens
reads is the star file path. -/
structure AppEntry where
  id : String
  starFilePath : String
deriving DecidableEq, Repr

/-- The environment a worker-side render runs against: the registry snapshot,
the filesystem stat oracle (none = stat error, some isDir), the applet loader
outcome and the engine outcome. -/
structure RenderEnv where
  registry : String → Option AppEntry
  statIsDir : String → Option Bool
  loadOk : Bool
  engineResult : Except Unit Screens

/-- One worker-side render run, recording whether the registry was consulted
and whether the shared render lock was taken before producing the result. -/
structure WorkerRunTrace where
  registryConsulted : Bool
  lockTaken : Bool
  result : Except RenderError Screens
deriving Repr

/-- Shallow embedding of worker_pool.go renderScreens (the part after cache
selection, which has no observable effect on the result).  The app id check
comes first; the registry is consulted only after it passes; the shared
render lock is taken only for the engine invocation. -/
def renderScreensRun (env : RenderEnv) (appID : String) : WorkerRunTrace :=
  if goContains appID ".." || goContains appID "/" then
    { registryConsulted := false, lockTaken := false, result := .error .invalidAppID }
  else
    match env.registry appID with
    | none => { registryConsulted := true, lockTaken := false, result := .error .appNotFound }
    | some app =>
      match env.statIsDir app.starFilePath with
      | none => { registryConsulted := true, lockTaken := false, result := .error .statFailed }
      | some isDir =>
        if !isDir && !(app.starFilePath.endsWith ".star") then
          { registryConsulted := true, lockTaken := false, result := .error .badSuffix }
        else if !env.loadOk then
          { registryConsulted := true, lockTaken := false, result := .error .loadFailed }
        else
          match env.engineResult with
          | .error _ => { registryConsulted := true, lockTaken := true, result := .error .engineError }
          | .ok s => { registryConsulted := true, lockTaken := true, result := .ok s }

/-- The submit-then-process pipeline for a job the pool accepts while running
normally: worker_pool.go Submit performs no validation of its own, it builds
the job and pushes it onto wp.jobQueue, and the claiming worker then runs
renderScreens and delivers the result through the job's channel. -/
structure SubmitTrace where
  jobQueued : Bool
  registryConsulted : Bool
  result : Except RenderError Screens
deriving Repr

/-- Submit followed by worker processing (the non-cancelled, non-shutdown
path): the job is queued unconditionally, then the worker-side render runs. -/
def submitAndProcess (env : RenderEnv) (appID : String) : SubmitTrace :=
  let run := renderScreensRun env appID
  { jobQueued := true, registryConsulted := run.registryConsulted, result := run.result }

/-- What Submit can observe of the pool around shutdown: whether Stop has
cancelled wp.ctx, whether Stop has closed wp.jobQueue, and whether the queue
buffer currently has space. -/
structure PoolObs where
  poolCtxCancelled : Bool
  queueClosed : Bool
  queueHasSpace : Bool
deriving DecidableEq, Repr

/-- The ways the first select in worker_pool.go Submit can resolve. -/
inductive SubmitStep where
  | enqueued
  | callerCtxError
  | shutdownError
  | panicked
deriving DecidableEq, Repr

/-- The ready cases of the enqueue select in worker_pool.go Submit, following
the Go select semantics: a case is ready when its communication can proceed,
the runtime picks uniformly among ready cases, and a send on a closed channel
proceeds by panicking.  Stop runs wp.cancel() and then close(wp.jobQueue), so
after Stop both the send case (now a panic) and the wp.ctx.Done case are
ready. -/
def submitSelectReady (callerCancelled : Bool) (obs : PoolObs) : List SubmitStep :=
  (if obs.queueClosed then [SubmitStep.panicked]
   else if obs.queueHasSpace then [SubmitStep.enqueued] else []) ++
  (if callerCancelled then [SubmitStep.callerCtxError] else []) ++
  (if obs.poolCtxCancelled then [SubmitStep.shutdownError] else [])

/-- The cancellation sources in play for one render: the caller's context
passed to Submit, the pool-wide cancel fired by Stop, and the seconds elapsed
since the render context was created. -/
structure CtxWorld where
  callerCancelled : Bool
  poolCancelFired : Bool
  elapsedSeconds : Int
deriving DecidableEq, Repr

/-- Go context derivation chains as this pipeline builds them.  The
callerSupplied constructor stands for the ctx argument of Submit; withCancel
is used once, by NewWorkerPool for wp.ctx; withTimeout is used once, by
renderScreens. -/
inductive GoCtx where
  | background
  | callerSupplied
  | withCancel (parent : GoCtx)
  | withTimeout (parent : GoCtx) (seconds : Int)
deriving DecidableEq, Repr

/-- Whether a context's Done channel is closed: a timeout context fires when
its duration has elapsed or its parent is done; the single withCancel context
in this pipeline is wp.ctx, whose cancel Stop fires; the caller-supplied
context is done when the caller cancelled. -/
def ctxDone (w : CtxWorld) : GoCtx → Bool
  | .background => false
  | .callerSupplied => w.callerCancelled
  | .withCancel p => w.poolCancelFired || ctxDone w p
  | .withTimeout p d => decide (d ≤ w.elapsedSeconds) || ctxDone w p

/-- wp.ctx as NewWorkerPool builds it: context.WithCancel(context.Background()). -/
def poolCtx : GoCtx := .withCancel .background

/-- worker_pool.go secondsToDuration: seconds times time.Second, kept in
seconds here. -/
def secondsToDuration (seconds : Int) : Int := seconds

/-- The render deadline context as worker_pool.go renderScreens builds it:
context.WithTimeout(wp.ctx, secondsToDuration(wp.timeout)).  Its parent is
the pool context, not the caller's context. -/
def renderCtx (poolTimeout : Int) : GoCtx := .withTimeout poolCtx (secondsToDuration poolTimeout)

/-- Modelled from the spec: the deadline context the claim describes, derived
from the job's caller-supplied cancellation signal. -/
def claimedRenderCtx (poolTimeout : Int) : GoCtx := .withTimeout .callerSupplied (secondsToDuration poolTimeout)

/-- The timeout defaulting in processor.go NewProcessor and
NewProcessorWithRedis: a configured value of at most zero becomes 30 before
the worker pool is built. -/
def effectiveTimeout (cfgTimeout : Int) : Int := if cfgTimeout ≤ 0 then 30 else cfgTimeout

/-- The absolute deadline context.WithTimeout installs: creation time plus
the duration. -/
def renderDeadline (now timeoutSeconds : Int) : Int := now + secondsToDuration timeoutSeconds

/-- Events on a job's result channel. -/
inductive ChanEvent (α : Type) where
  | send (a : α)
  | closeCh
deriving DecidableEq, Repr

/-- worker_pool.go processJob: deliver the render outcome to the job's
channel, then close the channel — one send, one close, unconditionally. -/
def processJobEvents (outcome : Except RenderError Screens) : List (ChanEvent (Except RenderError Screens)) :=
  [.send outcome, .closeCh]

/-- Number of sends in a channel event history. -/
def sendCount {α : Type} (evs : List (ChanEvent α)) : Nat :=
  (evs.filter (fun e => match e with | .send _ => true | .closeCh => false)).length

/-- One worker's drain of the job queue, from the select loop in
worker_pool.go worker.  Jobs are identified by app id; the queue is the list
of jobs already submitted (buffered in wp.jobQueue).  When the pool context
is cancelled, both select cases are ready, so an oracle list of choices
decides at each step whether the worker exits (true) or claims the next job;
a worker that exits leaves the remaining jobs abandoned with no channel
events.  When the pool context is not cancelled only the receive case is
ready, so every queued job is processed. -/
def workerRun (env : RenderEnv) (poolCancelled : Bool) :
    List Bool → List String → List (String × List (ChanEvent (Except RenderError Screens)))
  | _, [] => []
  | [], j :: rest =>
    (j, processJobEvents (renderScreensRun env j).result) :: workerRun env poolCancelled [] rest
  | c :: cs, j :: rest =>
    if poolCancelled && c then
      (j, []) :: rest.map (fun r => (r, []))
    else
      (j, processJobEvents (renderScreensRun env j).result) :: workerRun env poolCancelled cs rest

/-- Program counter of one worker executing the locked section of
worker_pool.go renderScreens: acquire renderMu, write globals.Width,
globals.Height, render.FrameWidth, render.FrameHeight in source order, invoke
the engine (which reads all four), then unlock. -/
inductive JobPhase where
  | idle
  | locked
  | wroteGW
  | wroteGH
  | wroteFW
  | wroteFH
  | ran
  | finished
deriving DecidableEq, Repr

/-- Whether a phase lies between the Lock() and Unlock() calls. -/
def inCrit : JobPhase → Bool
  | .idle => false
  | .finished => false
  | _ => true

/-- The shared state the pool's renders race on: the renderMu owner, the four
dimension globals (globals.Width, globals.Height, render.FrameWidth,
render.FrameHeight), each job's program counter and, per job, the dimensions
the engine observed when that job invoked it. -/
structure PoolSt where
  lock : Option Nat
  gW : Int
  gH : Int
  fW : Int
  fH : Int
  phase : Nat → JobPhase
  observed : Nat → Option (Int × Int × Int × Int)

/-- The initial shared state: lock free, the pixlet default 64 by 32 globals,
every job before its critical section, nothing observed yet. -/
def initSt : PoolSt :=
  { lock := none, gW := 64, gH := 32, fW := 64, fH := 32,
    phase := fun _ => .idle, observed := fun _ => none }

/-- One atomic step of the pool, with jobs interleaved arbitrarily.  The
dimensions job j renders at are the resolved dimensions of its device
(devices j), exactly as renderScreens computes them before taking the lock.
Each constructor is one instruction of the locked section: renderMu.Lock()
succeeds only when no one holds the mutex; the four global writes and the
engine invocation follow the thread's own program order; the engine records
the four globals it reads; renderMu.Unlock() frees the mutex. -/
inductive RenderStep (devices : Nat → Device) : PoolSt → PoolSt → Prop where
  | acquire (s : PoolSt) (j : Nat) :
      s.phase j = .idle → s.lock = none →
      RenderStep devices s { s with lock := some j, phase := Function.update s.phase j .locked }
  | writeGW (s : PoolSt) (j : Nat) :
      s.phase j = .locked →
      RenderStep devices s { s with gW := resolveWidth (devices j).width,
                                    phase := Function.update s.phase j .wroteGW }
  | writeGH (s : PoolSt) (j : Nat) :
      s.phase j = .wroteGW →
      RenderStep devices s { s with gH := resolveHeight (devices j).height,
                                    phase := Function.update s.phase j .wroteGH }
  | writeFW (s : PoolSt) (j : Nat) :
      s.phase j = .wroteGH →
      RenderStep devices s { s with fW := resolveWidth (devices j).width,
                                    phase := Function.update s.phase j .wroteFW }
  | writeFH (s : PoolSt) (j : Nat) :
      s.phase j = .wroteFW →
      RenderStep devices s { s with fH := resolveHeight (devices j).height,
                                    phase := Function.update s.phase j .wroteFH }
  | runEngine (s : PoolSt) (j : Nat) :
      s.phase j = .wroteFH →
      RenderStep devices s { s with observed := Function.update s.observed j (some (s.gW, s.gH, s.fW, s.fH)),
                                    phase := Function.update s.phase j .ran }
  | release (s : PoolSt) (j : Nat) :
      s.phase j = .ran →
      RenderStep devices s { s with lock := none, phase := Function.update s.phase j .finished }

/-- States the pool can reach from the initial state by any interleaving. -/
def Reachable (devices : Nat → Device) (s : PoolSt) : Prop :=
  Relation.ReflTransGen (RenderStep devices) initSt s

/-- The inductive invariant: whoever is inside the critical section owns the
lock, the globals already written by the lock owner hold its resolved
dimensions, and every recorded engine observation equals the observing job's
own resolved dimensions. -/
def Inv (devices : Nat → Device) (s : PoolSt) : Prop :=
  (∀ j, inCrit (s.phase j) = true → s.lock = some j) ∧
  (∀ j, s.phase j = .wroteGW → s.gW = resolveWidth (devices j).width) ∧
  (∀ j, s.phase j = .wroteGH →
      s.gW = resolveWidth (devices j).width ∧ s.gH = resolveHeight (devices j).height) ∧
  (∀ j, s.phase j = .wroteFW →
      s.gW = resolveWidth (devices j).width ∧ s.gH = resolveHeight (devices j).height ∧
      s.fW = resolveWidth (devices j).width) ∧
  (∀ j, s.phase j = .wroteFH →
      s.gW = resolveWidth (devices j).width ∧ s.gH = resolveHeight (devices j).height ∧
      s.fW = resolveWidth (devices j).width ∧ s.fH = resolveHeight (devices j).height) ∧
  (∀ j v, s.observed j = some v →
      v = (resolveWidth (devices j).width, resolveHeight (devices j).height,
           resolveWidth (devices j).width, resolveHeight (devices j).height))

/-! ## Map lemmas -/

theorem mapGet_mapSet_same (m : List (String × String)) (k v : String) :
    mapGet (mapSet m k v) k = some v := by
  unfold mapGet mapSet
  rw [List.find?_append]
  have h1 : (m.filter (fun p => !(p.1 == k))).find? (fun p => p.1 == k) = none := by
    rw [List.find?_eq_none]
    intro x hx
    have hmem := List.mem_filter.mp hx
    simpa using hmem.2
  rw [h1]
  simp

theorem find?_filter_other (t : List (String × String)) (k kOther : String) (h : k ≠ kOther) :
    (t.filter (fun p => !(p.1 == kOther))).find? (fun p => p.1 == k)
      = t.find? (fun p => p.1 == k) := by
  induction t with
  | nil => rfl
  | cons p t ih =>
    rw [List.filter_cons]
    by_cases hp : p.1 = kOther
    · have hcond : (!(p.1 == kOther)) = false := by simp [hp]
      rw [hcond, if_neg (by simp)]
      rw [List.find?_cons_of_neg _ (by simp [hp, Ne.symm h]), ih]
    · have hcond : (!(p.1 == kOther)) = true := by simp [hp]
      rw [hcond, if_pos rfl]
      by_cases hk : p.1 = k
      · rw [List.find?_cons_of_pos _ (by simp [hk]), List.find?_cons_of_pos _ (by simp [hk])]
      · rw [List.find?_cons_of_neg _ (by simp [hk]), List.find?_cons_of_neg _ (by simp [hk]), ih]

theorem mapGet_mapSet_other (m : List (String × String)) (k kOther v : String)
    (h : k ≠ kOther) : mapGet (mapSet m kOther v) k = mapGet m k := by
  unfold mapGet mapSet
  rw [List.find?_append, find?_filter_other m k kOther h]
  cases hf : m.find? (fun p => p.1 == k) with
  | none =>
    have h2 : List.find? (fun p => p.1 == k) [(kOther, v)] = none := by
      rw [List.find?_cons_of_neg _ (by simp [Ne.symm h])]
      rfl
    simp [h2]
  | some p => simp

/-! ## Claim theorems -/

/-- C8 counterexample: the code coerces a slice value with Go fmt percent-v,
which space-separates elements, while the claim says every non-scalar value
becomes its JSON serialization, which comma-separates them; the two disagree
on the concrete params value that is the list of integers 1 and 2. -/
theorem c8_counterexample :
    coerceValue (.list [.int 1, .int 2]) = "[1 2]" ∧
    jsonOfValue (.list [.int 1, .int 2]) = "[1,2]" ∧
    coerceValue (.list [.int 1, .int 2]) ≠ specCoerceValue (.list [.int 1, .int 2]) :=
  ⟨rfl, rfl, by decide⟩

/-- C8 (amended): the config-normalization step is a total, deterministic
coercion of every config value to a string: strings pass through unchanged,
booleans become true/false, integers become decimal text, nil becomes the
empty string, and every other value becomes its Go fmt percent-v rendering
(lists print bracketed with space-separated elements), not its JSON
serialization. -/
theorem c8_coercion_rules :
    (∀ s, coerceValue (.str s) = s) ∧
    coerceValue .nil = "" ∧
    (∀ b, coerceValue (.boolean b) = if b then "true" else "false") ∧
    (∀ n, coerceValue (.int n) = toString n) ∧
    (∀ xs, coerceValue (.list xs) = "[" ++ goFmtList xs ++ "]") ∧
    goFmtList [] = "" ∧
    (∀ x, goFmtList [x] = goFmt x) ∧
    (∀ x y t, goFmtList (x :: y :: t) = goFmt x ++ " " ++ goFmtList (y :: t)) :=
  ⟨fun _ => rfl, rfl, fun _ => rfl, fun _ => rfl, fun _ => rfl, rfl, fun _ => rfl,
   fun _ _ _ => rfl⟩

/-- C9: for every render job, non-positive device dimensions fall back to the
64 by 32 defaults, and the resolved width and height are injected into the
normalized config under the reserved keys display_width and display_height,
overriding any caller-supplied values under those keys (the params argument
is universally quantified, so no caller entry survives). -/
theorem c9_resolved_dimensions_injected (params : List (String × GoValue)) (device : Device) :
    mapGet (renderConfig params device) "display_width"
      = some (toString (if device.width ≤ 0 then (64 : Int) else device.width)) ∧
    mapGet (renderConfig params device) "display_height"
      = some (toString (if device.height ≤ 0 then (32 : Int) else device.height)) := by
  constructor
  · unfold renderConfig
    rw [mapGet_mapSet_other _ _ _ _ (by decide), mapGet_mapSet_same]
    rfl
  · unfold renderConfig
    rw [mapGet_mapSet_same]
    rfl

/-- C5 counterexample: calling RenderPreview with the unsupported format png
still invokes the worker pool (the render is submitted and executed) before
the unsupported-format error is produced, contradicting the claim that the
call fails without invoking the pool. -/
theorem c5_counterexample :
    (renderPreview (Except.ok ⟨false, false⟩) "png" (fun _ _ => Except.ok [7])).poolInvoked = true ∧
    (renderPreview (Except.ok ⟨false, false⟩) "png" (fun _ _ => Except.ok [7])).outcome
      = PreviewOutcome.unsupportedFormat :=
  ⟨rfl, rfl⟩

/-- C5 (amended): for every call to RenderPreview with a format other than
webp, the call fails with an unsupported-format error and the encoder is
never invoked, but only after the render job has been submitted to the worker
pool and executed: the pool is invoked on every RenderPreview call. -/
theorem c5_unsupported_format_fails_after_render (s : Screens) (format : String)
    (encodeWebP : Screens → Int → Except Unit (List Nat))
    (h : goToLower format ≠ "webp") :
    (renderPreview (.ok s) format encodeWebP).outcome = .unsupportedFormat ∧
    (renderPreview (.ok s) format encodeWebP).encodeInvoked = false ∧
    (∀ submitResult, (renderPreview submitResult format encodeWebP).poolInvoked = true) := by
  refine ⟨?_, ?_, ?_⟩
  · simp [renderPreview, h]
  · simp [renderPreview, h]
  · intro submitResult
    cases submitResult with
    | error e => rfl
    | ok s2 =>
      by_cases h2 : goToLower format = "webp"
      · exact absurd h2 h
      · simp [renderPreview, h2]

/-- C5 witness. -/
theorem c5_unsupported_format_fails_after_render_witness :
    (renderPreview (Except.ok ⟨true, false⟩) "png" (fun _ _ => Except.ok [7])).outcome
      = PreviewOutcome.unsupportedFormat ∧
    (renderPreview (Except.ok ⟨true, false⟩) "png" (fun _ _ => Except.ok [7])).encodeInvoked = false :=
  ⟨(c5_unsupported_format_fails_after_render ⟨true, false⟩ "png" (fun _ _ => Except.ok [7])
      (by decide)).1,
   (c5_unsupported_format_fails_after_render ⟨true, false⟩ "png" (fun _ _ => Except.ok [7])
      (by decide)).2.1⟩

/-- C10: the RenderPreview format gate depends only on the lowercase of the
format string: every format whose ASCII lowercase form is webp proceeds to
the encoder, and every other format yields the unsupported-format outcome. -/
theorem c10_format_gate_lowercase (s : Screens) (format : String)
    (encodeWebP : Screens → Int → Except Unit (List Nat)) :
    (goToLower format = "webp" →
      (renderPreview (.ok s) format encodeWebP).encodeInvoked = true) ∧
    (goToLower format ≠ "webp" →
      (renderPreview (.ok s) format encodeWebP).outcome = .unsupportedFormat) := by
  constructor
  · intro h
    cases henc : encodeWebP s (maxDurationFor s) <;> simp [renderPreview, h, henc]
  · intro h
    simp [renderPreview, h]

/-- C10 witness: the mixed-case and upper-case spellings are accepted, the
format png is rejected. -/
theorem c10_format_gate_lowercase_witness :
    (renderPreview (Except.ok ⟨false, false⟩) "WebP" (fun _ _ => Except.ok [7])).encodeInvoked
      = true ∧
    (renderPreview (Except.ok ⟨false, false⟩) "WEBP" (fun _ _ => Except.ok [7])).encodeInvoked
      = true ∧
    (renderPreview (Except.ok ⟨false, false⟩) "png" (fun _ _ => Except.ok [7])).outcome
      = PreviewOutcome.unsupportedFormat :=
  ⟨(c10_format_gate_lowercase ⟨false, false⟩ "WebP" (fun _ _ => Except.ok [7])).1 (by decide),
   (c10_format_gate_lowercase ⟨false, false⟩ "WEBP" (fun _ _ => Except.ok [7])).1 (by decide),
   (c10_format_gate_lowercase ⟨false, false⟩ "png" (fun _ _ => Except.ok [7])).2 (by decide)⟩

/-- C6: RenderApp always assembles a result record; a true error flag always
comes with empty output; a successful submit whose screens are empty yields
the distinct non-error outcome with the false flag and empty output; a failed
submit yields the true flag, empty output, and the underlying error returned
beside the record. -/
theorem c6_failed_flag_invariants (req : RenderRequest)
    (submitResult : Except RenderError Screens)
    (encodeWebP : Screens → Int → Except Unit (List Nat))
    (b64 : List Nat → String) :
    ((renderApp req submitResult encodeWebP b64).1.error = true →
      (renderApp req submitResult encodeWebP b64).1.renderOutput = "") ∧
    (∀ s, submitResult = .ok s → s.empty = true →
      (renderApp req submitResult encodeWebP b64).1.error = false ∧
      (renderApp req submitResult encodeWebP b64).1.renderOutput = "" ∧
      (renderApp req submitResult encodeWebP b64).2 = none) ∧
    (∀ e, submitResult = .error e →
      (renderApp req submitResult encodeWebP b64).1.error = true ∧
      (renderApp req submitResult encodeWebP b64).1.renderOutput = "" ∧
      (renderApp req submitResult encodeWebP b64).2 = some (.submitFailed e)) ∧
    (renderApp req submitResult encodeWebP b64).1.type = "render_result" ∧
    (renderApp req submitResult encodeWebP b64).1.uuid = req.uuid := by
  cases submitResult with
  | error e =>
    exact ⟨fun _ => rfl, fun s hs => by simp at hs, fun e2 he => by
      injection he with he2; subst he2; exact ⟨rfl, rfl, rfl⟩, rfl, rfl⟩
  | ok s =>
    by_cases hs : s.empty = true
    · refine ⟨?_, ?_, ?_, ?_, ?_⟩ <;> simp [renderApp, hs]
    · cases henc : encodeWebP s (maxDurationFor s) with
      | error u =>
        refine ⟨?_, ?_, ?_, ?_, ?_⟩ <;> simp [renderApp, hs, henc]
      | ok bytes =>
        refine ⟨?_, ?_, ?_, ?_, ?_⟩ <;> simp [renderApp, hs, henc]

/-- C6 witness: a failed submit and an empty-screens submit, distinguished by
the error flag alone. -/
theorem c6_failed_flag_invariants_witness :
    (renderApp ⟨"u1", "clock", ⟨"d1", 64, 32⟩⟩ (Except.error RenderError.engineError)
      (fun _ _ => Except.ok [7]) (fun _ => "AA==")).1.error = true ∧
    (renderApp ⟨"u1", "clock", ⟨"d1", 64, 32⟩⟩ (Except.error RenderError.engineError)
      (fun _ _ => Except.ok [7]) (fun _ => "AA==")).1.renderOutput = "" ∧
    (renderApp ⟨"u1", "clock", ⟨"d1", 64, 32⟩⟩ (Except.ok ⟨true, false⟩)
      (fun _ _ => Except.ok [7]) (fun _ => "AA==")).1.error = false ∧
    (renderApp ⟨"u1", "clock", ⟨"d1", 64, 32⟩⟩ (Except.ok ⟨true, false⟩)
      (fun _ _ => Except.ok [7]) (fun _ => "AA==")).1.renderOutput = "" := by
  refine ⟨?_, ?_, ?_, ?_⟩
  · exact ((c6_failed_flag_invariants ⟨"u1", "clock", ⟨"d1", 64, 32⟩⟩
      (Except.error RenderError.engineError) (fun _ _ => Except.ok [7])
      (fun _ => "AA==")).2.2.1 RenderError.engineError rfl).1
  · exact ((c6_failed_flag_invariants ⟨"u1", "clock", ⟨"d1", 64, 32⟩⟩
      (Except.error RenderError.engineError) (fun _ _ => Except.ok [7])
      (fun _ => "AA==")).2.2.1 RenderError.engineError rfl).2.1
  · exact ((c6_failed_flag_invariants ⟨"u1", "clock", ⟨"d1", 64, 32⟩⟩
      (Except.ok ⟨true, false⟩) (fun _ _ => Except.ok [7])
      (fun _ => "AA==")).2.1 ⟨true, false⟩ rfl rfl).1
  · exact ((c6_failed_flag_invariants ⟨"u1", "clock", ⟨"d1", 64, 32⟩⟩
      (Except.ok ⟨true, false⟩) (fun _ _ => Except.ok [7])
      (fun _ => "AA==")).2.1 ⟨true, false⟩ rfl rfl).2.1

/-- C2 counterexample: for the app id from the claim, the job is pushed onto
the pool's queue (Submit performs no validation of its own), so the claim
that the job is never queued fails; the registry is indeed never consulted
and the invalid-app-id error is what the caller receives. -/
theorem c2_counterexample :
    (submitAndProcess
      { registry := fun _ => none, statIsDir := fun _ => none, loadOk := true,
        engineResult := Except.ok ⟨false, false⟩ } "../etc/passwd").jobQueued = true ∧
    (submitAndProcess
      { registry := fun _ => none, statIsDir := fun _ => none, loadOk := true,
        engineResult := Except.ok ⟨false, false⟩ } "../etc/passwd").registryConsulted = false ∧
    (submitAndProcess
      { registry := fun _ => none, statIsDir := fun _ => none, loadOk := true,
        engineResult := Except.ok ⟨false, false⟩ } "../etc/passwd").result
      = Except.error RenderError.invalidAppID :=
  ⟨rfl, rfl, rfl⟩

/-- C2 (amended): for every app id containing a double dot or a path
separator, the render fails with the invalid-app-id error and the registry is
never consulted; the check runs in the worker after the job has been pushed
onto the pool's queue, and the error reaches the Submit caller through the
job's result channel. -/
theorem c2_traversal_rejected_in_worker (env : RenderEnv) (appID : String)
    (h : (goContains appID ".." || goContains appID "/") = true) :
    (submitAndProcess env appID).jobQueued = true ∧
    (submitAndProcess env appID).registryConsulted = false ∧
    (submitAndProcess env appID).result = Except.error RenderError.invalidAppID := by
  refine ⟨rfl, ?_, ?_⟩ <;> simp [submitAndProcess, renderScreensRun, h]

/-- C2 witness. -/
theorem c2_traversal_rejected_in_worker_witness :
    (submitAndProcess
      { registry := fun _ => some ⟨"x", "/apps/x.star"⟩, statIsDir := fun _ => some false,
        loadOk := true, engineResult := Except.ok ⟨false, false⟩ } "a/b").jobQueued = true ∧
    (submitAndProcess
      { registry := fun _ => some ⟨"x", "/apps/x.star"⟩, statIsDir := fun _ => some false,
        loadOk := true, engineResult := Except.ok ⟨false, false⟩ } "a/b").registryConsulted
      = false :=
  ⟨(c2_traversal_rejected_in_worker
      { registry := fun _ => some ⟨"x", "/apps/x.star"⟩, statIsDir := fun _ => some false,
        loadOk := true, engineResult := Except.ok ⟨false, false⟩ } "a/b" (by decide)).1,
   (c2_traversal_rejected_in_worker
      { registry := fun _ => some ⟨"x", "/apps/x.star"⟩, statIsDir := fun _ => some false,
        loadOk := true, engineResult := Except.ok ⟨false, false⟩ } "a/b" (by decide)).2.1⟩

/-- C3: after Stop has cancelled the pool context and closed the job queue,
the enqueue select in Submit has the panicking send case among its ready
cases alongside the shutdown-error case, so Submit invoked after Stop can
panic instead of failing fast with the shutdown error: the code contradicts
the claim that Submit never panics. -/
theorem c3_submit_after_stop_can_panic :
    SubmitStep.panicked ∈ submitSelectReady false ⟨true, true, false⟩ ∧
    SubmitStep.shutdownError ∈ submitSelectReady false ⟨true, true, false⟩ ∧
    SubmitStep.enqueued ∉ submitSelectReady false ⟨true, true, false⟩ := by
  decide

/-- C4 counterexample: with the caller's context cancelled, the pool running
and no time elapsed, the render deadline context the code builds is not done,
while the context the claim describes (derived from the caller's cancellation
signal) would be done: the code derives the deadline from the pool context,
not from the caller's. -/
theorem c4_counterexample :
    ctxDone ⟨true, false, 0⟩ (renderCtx (effectiveTimeout 30)) = false ∧
    ctxDone ⟨true, false, 0⟩ (claimedRenderCtx (effectiveTimeout 30)) = true := by
  decide

/-- C4 (amended): every render runs under a deadline of now plus
timeoutSeconds, where timeoutSeconds defaults to 30 at processor construction
when the configured value is non-positive; the deadline context is derived
from the pool's context — it fires when the timeout elapses or the pool shuts
down — and is not cancelable by the job's caller-supplied cancellation
signal. -/
theorem c4_deadline_from_pool_context (w : CtxWorld) (cfgTimeout : Int) :
    ctxDone w (renderCtx (effectiveTimeout cfgTimeout))
      = (decide (effectiveTimeout cfgTimeout ≤ w.elapsedSeconds) || w.poolCancelFired) ∧
    (cfgTimeout ≤ 0 → effectiveTimeout cfgTimeout = 30) ∧
    (0 < cfgTimeout → effectiveTimeout cfgTimeout = cfgTimeout) ∧
    (∀ now, renderDeadline now (effectiveTimeout cfgTimeout)
      = now + effectiveTimeout cfgTimeout) ∧
    (w.callerCancelled = true → w.poolCancelFired = false →
      w.elapsedSeconds < effectiveTimeout cfgTimeout →
      ctxDone w (renderCtx (effectiveTimeout cfgTimeout)) = false) := by
  refine ⟨?_, ?_, ?_, fun _ => rfl, ?_⟩
  · simp [ctxDone, renderCtx, poolCtx, secondsToDuration]
  · intro hle
    simp [effectiveTimeout, hle]
  · intro hpos
    simp [effectiveTimeout, not_le.mpr hpos]
  · intro _ hpool hlt
    simp [ctxDone, renderCtx, poolCtx, secondsToDuration, hpool, not_le.mpr hlt]

/-- C4 witness: caller cancelled, pool alive, no time elapsed, configured
timeout 0 (so the effective timeout is the default 30): the render context
is not done. -/
theorem c4_deadline_from_pool_context_witness :
    effectiveTimeout 0 = 30 ∧
    ctxDone ⟨true, false, 0⟩ (renderCtx (effectiveTimeout 0)) = false :=
  ⟨(c4_deadline_from_pool_context ⟨true, false, 0⟩ 0).2.1 (by decide),
   (c4_deadline_from_pool_context ⟨true, false, 0⟩ 0).2.2.2.2 rfl rfl (by decide)⟩

/-- C7 counterexample: a job already submitted (sitting in the queue) when
shutdown makes the worker take the context-done select case receives zero
outcomes on its result channel, refuting exactly-one delivery for every
submitted job under pool shutdown. -/
theorem c7_counterexample :
    (workerRun
      { registry := fun _ => none, statIsDir := fun _ => none, loadOk := true,
        engineResult := Except.ok ⟨false, false⟩ } true [true] ["clock"]).map
      (fun p => (p.1, sendCount p.2)) = [("clock", 0)] := rfl

/-- C7 (amended): every job a worker actually processes receives exactly the
one-send-then-close event history on its result channel; under pool shutdown
a still-queued job may instead be abandoned with no events at all; no job
ever receives more than one outcome, and without shutdown every queued job
receives exactly one. -/
theorem c7_exactly_one_delivery_per_processed_job (env : RenderEnv) (cancelled : Bool) :
    ∀ (choices : List Bool) (queue : List String) (j : String)
      (evs : List (ChanEvent (Except RenderError Screens))),
      (j, evs) ∈ workerRun env cancelled choices queue →
      (evs = processJobEvents (renderScreensRun env j).result ∨
        (cancelled = true ∧ evs = [])) ∧
      sendCount evs ≤ 1 ∧
      (cancelled = false → sendCount evs = 1) := by
  intro choices queue
  induction queue generalizing choices with
  | nil =>
    intro j evs hmem
    cases choices <;> simp [workerRun] at hmem
  | cons q rest ih =>
    intro j evs hmem
    match choices with
    | [] =>
      rw [workerRun] at hmem
      rcases List.mem_cons.mp hmem with h1 | h2
      · obtain ⟨hj, hevs⟩ := Prod.mk.injEq .. ▸ h1
        subst hj
        subst hevs
        exact ⟨Or.inl rfl, by simp [processJobEvents, sendCount], fun _ => rfl⟩
      · exact ih [] j evs h2
    | c :: cs =>
      rw [workerRun] at hmem
      by_cases hc : (cancelled && c) = true
      · rw [if_pos hc] at hmem
        have hcanc : cancelled = true := by
          simp only [Bool.and_eq_true] at hc
          exact hc.1
        rcases List.mem_cons.mp hmem with h1 | h2
        · obtain ⟨hj, hevs⟩ := Prod.mk.injEq .. ▸ h1
          subst hevs
          exact ⟨Or.inr ⟨hcanc, rfl⟩, by simp [sendCount],
            fun hf => absurd (hf ▸ hcanc) (by simp)⟩
        · obtain ⟨r, _, hr⟩ := List.mem_map.mp h2
          obtain ⟨hj, hevs⟩ := Prod.mk.injEq .. ▸ hr
          subst hevs
          exact ⟨Or.inr ⟨hcanc, rfl⟩, by simp [sendCount],
            fun hf => absurd (hf ▸ hcanc) (by simp)⟩
      · rw [if_neg hc] at hmem
        rcases List.mem_cons.mp hmem with h1 | h2
        · obtain ⟨hj, hevs⟩ := Prod.mk.injEq .. ▸ h1
          subst hj
          subst hevs
          exact ⟨Or.inl rfl, by simp [processJobEvents, sendCount], fun _ => rfl⟩
        · exact ih cs j evs h2

/-- C7 witness: without shutdown, the queued job receives exactly one
outcome. -/
theorem c7_exactly_one_delivery_per_processed_job_witness :
    sendCount (processJobEvents (renderScreensRun
      { registry := fun _ => none, statIsDir := fun _ => none, loadOk := true,
        engineResult := Except.ok ⟨false, false⟩ } "clock").result) = 1 :=
  (c7_exactly_one_delivery_per_processed_job
    { registry := fun _ => none, statIsDir := fun _ => none, loadOk := true,
      engineResult := Except.ok ⟨false, false⟩ } false [] ["clock"] "clock" _
    (by rw [workerRun]; exact List.mem_cons_self _ _)).2.2 rfl

/-! ## C1: the render lock serializes engine access -/

theorem inv_init (devices : Nat → Device) : Inv devices initSt := by
  refine ⟨fun j h => ?_, fun j h => ?_, fun j h => ?_, fun j h => ?_, fun j h => ?_,
    fun j v h => ?_⟩ <;> simp [initSt, inCrit] at h

theorem inv_step (devices : Nat → Device) {s t : PoolSt}
    (hst : RenderStep devices s t) (hinv : Inv devices s) : Inv devices t := by
  obtain ⟨hLock, hW1, hW2, hW3, hW4, hObs⟩ := hinv
  cases hst with
  | acquire j hj hl =>
    refine ⟨fun k hk => ?_, fun k hk => ?_, fun k hk => ?_, fun k hk => ?_, fun k hk => ?_,
      fun k v hk => ?_⟩
    all_goals simp only [Function.update_apply] at hk ⊢
    · by_cases hkj : k = j
      · simp [hkj]
      · rw [if_neg hkj] at hk
        have hlk := hLock k hk
        rw [hl] at hlk
        cases hlk
    · by_cases hkj : k = j
      · rw [if_pos hkj] at hk; cases hk
      · rw [if_neg hkj] at hk
        have hlk := hLock k (by rw [hk]; rfl)
        rw [hl] at hlk
        cases hlk
    · by_cases hkj : k = j
      · rw [if_pos hkj] at hk; cases hk
      · rw [if_neg hkj] at hk
        have hlk := hLock k (by rw [hk]; rfl)
        rw [hl] at hlk
        cases hlk
    · by_cases hkj : k = j
      · rw [if_pos hkj] at hk; cases hk
      · rw [if_neg hkj] at hk
        have hlk := hLock k (by rw [hk]; rfl)
        rw [hl] at hlk
        cases hlk
    · by_cases hkj : k = j
      · rw [if_pos hkj] at hk; cases hk
      · rw [if_neg hkj] at hk
        have hlk := hLock k (by rw [hk]; rfl)
        rw [hl] at hlk
        cases hlk
    · exact hObs k v hk
  | writeGW j hj =>
    have hsl : s.lock = some j := hLock j (by rw [hj]; rfl)
    refine ⟨fun k hk => ?_, fun k hk => ?_, fun k hk => ?_, fun k hk => ?_, fun k hk => ?_,
      fun k v hk => ?_⟩
    all_goals simp only [Function.update_apply] at hk ⊢
    · by_cases hkj : k = j
      · rw [hkj]; exact hsl
      · rw [if_neg hkj] at hk
        exact hLock k hk
    · by_cases hkj : k = j
      · rw [hkj]
      · rw [if_neg hkj] at hk
        have hlk := hLock k (by rw [hk]; rfl)
        rw [hsl] at hlk
        injection hlk with he
        exact absurd he.symm hkj
    · by_cases hkj : k = j
      · rw [if_pos hkj] at hk; cases hk
      · rw [if_neg hkj] at hk
        have hlk := hLock k (by rw [hk]; rfl)
        rw [hsl] at hlk
        injection hlk with he
        exact absurd he.symm hkj
    · by_cases hkj : k = j
      · rw [if_pos hkj] at hk; cases hk
      · rw [if_neg hkj] at hk
        have hlk := hLock k (by rw [hk]; rfl)
        rw [hsl] at hlk
        injection hlk with he
        exact absurd he.symm hkj
    · by_cases hkj : k = j
      · rw [if_pos hkj] at hk; cases hk
      · rw [if_neg hkj] at hk
        have hlk := hLock k (by rw [hk]; rfl)
        rw [hsl] at hlk
        injection hlk with he
        exact absurd he.symm hkj
    · exact hObs k v hk
  | writeGH j hj =>
    have hsl : s.lock = some j := hLock j (by rw [hj]; rfl)
    have hgW : s.gW = resolveWidth ((devices j).width) := hW1 j hj
    refine ⟨fun k hk => ?_, fun k hk => ?_, fun k hk => ?_, fun k hk => ?_, fun k hk => ?_,
      fun k v hk => ?_⟩
    all_goals simp only [Function.update_apply] at hk ⊢
    · by_cases hkj : k = j
      · rw [hkj]; exact hsl
      · rw [if_neg hkj] at hk
        exact hLock k hk
    · by_cases hkj : k = j
      · rw [if_pos hkj] at hk; cases hk
      · rw [if_neg hkj] at hk
        have hlk := hLock k (by rw [hk]; rfl)
        rw [hsl] at hlk
        injection hlk with he
        exact absurd he.symm hkj
    · by_cases hkj : k = j
      · rw [hkj]
        exact ⟨hgW, rfl⟩
      · rw [if_neg hkj] at hk
        have hlk := hLock k (by rw [hk]; rfl)
        rw [hsl] at hlk
        injection hlk with he
        exact absurd he.symm hkj
    · by_cases hkj : k = j
      · rw [if_pos hkj] at hk; cases hk
      · rw [if_neg hkj] at hk
        have hlk := hLock k (by rw [hk]; rfl)
        rw [hsl] at hlk
        injection hlk with he
        exact absurd he.symm hkj
    · by_cases hkj : k = j
      · rw [if_pos hkj] at hk; cases hk
      · rw [if_neg hkj] at hk
        have hlk := hLock k (by rw [hk]; rfl)
        rw [hsl] at hlk
        injection hlk with he
        exact absurd he.symm hkj
    · exact hObs k v hk
  | writeFW j hj =>
    have hsl : s.lock = some j := hLock j (by rw [hj]; rfl)
    have hgWH := hW2 j hj
    refine ⟨fun k hk => ?_, fun k hk => ?_, fun k hk => ?_, fun k hk => ?_, fun k hk => ?_,
      fun k v hk => ?_⟩
    all_goals simp only [Function.update_apply] at hk ⊢
    · by_cases hkj : k = j
      · rw [hkj]; exact hsl
      · rw [if_neg hkj] at hk
        exact hLock k hk
    · by_cases hkj : k = j
      · rw [if_pos hkj] at hk; cases hk
      · rw [if_neg hkj] at hk
        have hlk := hLock k (by rw [hk]; rfl)
        rw [hsl] at hlk
        injection hlk with he
        exact absurd he.symm hkj
    · by_cases hkj : k = j
      · rw [if_pos hkj] at hk; cases hk
      · rw [if_neg hkj] at hk
        have hlk := hLock k (by rw [hk]; rfl)
        rw [hsl] at hlk
        injection hlk with he
        exact absurd he.symm hkj
    · by_cases hkj : k = j
      · rw [hkj]
        exact ⟨hgWH.1, hgWH.2, rfl⟩
      · rw [if_neg hkj] at hk
        have hlk := hLock k (by rw [hk]; rfl)
        rw [hsl] at hlk
        injection hlk with he
        exact absurd he.symm hkj
    · by_cases hkj : k = j
      · rw [if_pos hkj] at hk; cases hk
      · rw [if_neg hkj] at hk
        have hlk := hLock k (by rw [hk]; rfl)
        rw [hsl] at hlk
        injection hlk with he
        exact absurd he.symm hkj
    · exact hObs k v hk
  | writeFH j hj =>
    have hsl : s.lock = some j := hLock j (by rw [hj]; rfl)
    have hgWHF := hW3 j hj
    refine ⟨fun k hk => ?_, fun k hk => ?_, fun k hk => ?_, fun k hk => ?_, fun k hk => ?_,
      fun k v hk => ?_⟩
    all_goals simp only [Function.update_apply] at hk ⊢
    · by_cases hkj : k = j
      · rw [hkj]; exact hsl
      · rw [if_neg hkj] at hk
        exact hLock k hk
    · by_cases hkj : k = j
      · rw [if_pos hkj] at hk; cases hk
      · rw [if_neg hkj] at hk
        have hlk := hLock k (by rw [hk]; rfl)
        rw [hsl] at hlk
        injection hlk with he
        exact absurd he.symm hkj
    · by_cases hkj : k = j
      · rw [if_pos hkj] at hk; cases hk
      · rw [if_neg hkj] at hk
        have hlk := hLock k (by rw [hk]; rfl)
        rw [hsl] at hlk
        injection hlk with he
        exact absurd he.symm hkj
    · by_cases hkj : k = j
      · rw [if_pos hkj] at hk; cases hk
      · rw [if_neg hkj] at hk
        have hlk := hLock k (by rw [hk]; rfl)
        rw [hsl] at hlk
        injection hlk with he
        exact absurd he.symm hkj
    · by_cases hkj : k = j
      · rw [hkj]
        exact ⟨hgWHF.1, hgWHF.2.1, hgWHF.2.2, rfl⟩
      · rw [if_neg hkj] at hk
        have hlk := hLock k (by rw [hk]; rfl)
        rw [hsl] at hlk
        injection hlk with he
        exact absurd he.symm hkj
    · exact hObs k v hk
  | runEngine j hj =>
    have hsl : s.lock = some j := hLock j (by rw [hj]; rfl)
    have hall := hW4 j hj
    refine ⟨fun k hk => ?_, fun k hk => ?_, fun k hk => ?_, fun k hk => ?_, fun k hk => ?_,
      fun k v hk => ?_⟩
    all_goals simp only [Function.update_apply] at hk ⊢
    · by_cases hkj : k = j
      · rw [hkj]; exact hsl
      · rw [if_neg hkj] at hk
        exact hLock k hk
    · by_cases hkj : k = j
      · rw [if_pos hkj] at hk; cases hk
      · rw [if_neg hkj] at hk
        exact hW1 k hk
    · by_cases hkj : k = j
      · rw [if_pos hkj] at hk; cases hk
      · rw [if_neg hkj] at hk
        exact hW2 k hk
    · by_cases hkj : k = j
      · rw [if_pos hkj] at hk; cases hk
      · rw [if_neg hkj] at hk
        exact hW3 k hk
    · by_cases hkj : k = j
      · rw [if_pos hkj] at hk; cases hk
      · rw [if_neg hkj] at hk
        exact hW4 k hk
    · by_cases hkj : k = j
      · subst hkj
        rw [if_pos rfl] at hk
        injection hk with he
        rw [← he, hall.1, hall.2.1, hall.2.2.1, hall.2.2.2]
      · rw [if_neg hkj] at hk
        exact hObs k v hk
  | release j hj =>
    have hsl : s.lock = some j := hLock j (by rw [hj]; rfl)
    refine ⟨fun k hk => ?_, fun k hk => ?_, fun k hk => ?_, fun k hk => ?_, fun k hk => ?_,
      fun k v hk => ?_⟩
    all_goals simp only [Function.update_apply] at hk ⊢
    · by_cases hkj : k = j
      · rw [if_pos hkj] at hk; cases hk
      · rw [if_neg hkj] at hk
        have hlk := hLock k hk
        rw [hsl] at hlk
        injection hlk with he
        exact absurd he.symm hkj
    · by_cases hkj : k = j
      · rw [if_pos hkj] at hk; cases hk
      · rw [if_neg hkj] at hk
        exact hW1 k hk
    · by_cases hkj : k = j
      · rw [if_pos hkj] at hk; cases hk
      · rw [if_neg hkj] at hk
        exact hW2 k hk
    · by_cases hkj : k = j
      · rw [if_pos hkj] at hk; cases hk
      · rw [if_neg hkj] at hk
        exact hW3 k hk
    · by_cases hkj : k = j
      · rw [if_pos hkj] at hk; cases hk
      · rw [if_neg hkj] at hk
        exact hW4 k hk
    · exact hObs k v hk

theorem reachable_inv (devices : Nat → Device) {s : PoolSt}
    (h : Reachable devices s) : Inv devices s := by
  unfold Reachable at h
  induction h with
  | refl => exact inv_init devices
  | tail _ hstep ih => exact inv_step devices hstep ih

/-- C1: in every reachable interleaving of render jobs, the four dimension
globals the external engine reads during a job's engine invocation are
exactly that job's own resolved device dimensions — never a mix of two jobs'
values — and at most one job is inside the locked section at a time, because
the engine invocation and the writes to the shared dimension globals happen
while holding the single process-wide render lock. -/
theorem c1_engine_sees_own_dimensions (devices : Nat → Device) (s : PoolSt)
    (hreach : Reachable devices s) :
    (∀ j v, s.observed j = some v →
      v = (resolveWidth (devices j).width, resolveHeight (devices j).height,
           resolveWidth (devices j).width, resolveHeight (devices j).height)) ∧
    (∀ j k, inCrit (s.phase j) = true → inCrit (s.phase k) = true → j = k) := by
  obtain ⟨hLock, _, _, _, _, hObs⟩ := reachable_inv devices hreach
  refine ⟨hObs, fun j k hj hk => ?_⟩
  have h1 := hLock j hj
  have h2 := hLock k hk
  rw [h1] at h2
  injection h2

/-- Demonstration device family for the C1 witness: job j renders at
(10 + j) by (20 + j). -/
def c1Devices : Nat → Device := fun j => { id := "d", width := 10 + j, height := 20 + j }

/-- The states of one full critical section of job 0 under c1Devices. -/
def c1s1 : PoolSt :=
  { initSt with lock := some 0, phase := Function.update initSt.phase 0 .locked }

def c1s2 : PoolSt :=
  { c1s1 with gW := resolveWidth (c1Devices 0).width,
              phase := Function.update c1s1.phase 0 .wroteGW }

def c1s3 : PoolSt :=
  { c1s2 with gH := resolveHeight (c1Devices 0).height,
              phase := Function.update c1s2.phase 0 .wroteGH }

def c1s4 : PoolSt :=
  { c1s3 with fW := resolveWidth (c1Devices 0).width,
              phase := Function.update c1s3.phase 0 .wroteFW }

def c1s5 : PoolSt :=
  { c1s4 with fH := resolveHeight (c1Devices 0).height,
              phase := Function.update c1s4.phase 0 .wroteFH }

def c1s6 : PoolSt :=
  { c1s5 with observed := Function.update c1s5.observed 0 (some (c1s5.gW, c1s5.gH, c1s5.fW, c1s5.fH)),
              phase := Function.update c1s5.phase 0 .ran }

theorem c1_demo_reach : Reachable c1Devices c1s6 :=
  Relation.ReflTransGen.tail
    (Relation.ReflTransGen.tail
      (Relation.ReflTransGen.tail
        (Relation.ReflTransGen.tail
          (Relation.ReflTransGen.tail
            (Relation.ReflTransGen.tail Relation.ReflTransGen.refl
              (RenderStep.acquire initSt 0 rfl rfl))
            (RenderStep.writeGW c1s1 0 (by simp [c1s1, initSt])))
          (RenderStep.writeGH c1s2 0 (by simp [c1s2, c1s1, initSt])))
        (RenderStep.writeFW c1s3 0 (by simp [c1s3, c1s2, c1s1, initSt])))
      (RenderStep.writeFH c1s4 0 (by simp [c1s4, c1s3, c1s2, c1s1, initSt])))
    (RenderStep.runEngine c1s5 0 (by simp [c1s5, c1s4, c1s3, c1s2, c1s1, initSt]))

/-- C1 witness: after job 0 runs its critical section, the recorded engine
observation equals job 0's resolved dimensions. -/
theorem c1_engine_sees_own_dimensions_witness :
    ((10 : Int), (20 : Int), (10 : Int), (20 : Int))
      = (resolveWidth (c1Devices 0).width, resolveHeight (c1Devices 0).height,
         resolveWidth (c1Devices 0).width, resolveHeight (c1Devices 0).height) :=
  (c1_engine_sees_own_dimensions c1Devices c1s6 c1_demo_reach).1 0 (10, 20, 10, 20)
    (by simp [c1s6, c1s5, c1s4, c1s3, c1s2, c1s1, initSt, c1Devices, resolveWidth, resolveHeight])

end MatrxRenderer
